import Mathlib

/-!
Shallow embedding of the c3lingo data model (`src/c3lingo/models.py`).

The repository declares ten Django model classes plus their foreign-key
deletion policies (`on_delete=PROTECT / CASCADE / SET_NULL`), two
`unique_together` constraints and a `OneToOneField`, and a handful of
derived read-only properties.  We embed:
  * each model class as a row structure (fields kept with their source
    names; Python `str` fields become `String`, nullable foreign keys
    become `Option Nat`, datetimes become opaque integers),
  * the database as lists of rows per table, with create/delete
    operations implementing exactly the declared relational semantics
    (uniqueness checks on insert, PROTECT / CASCADE / SET_NULL on
    delete, as the Django ORM executes them for these declarations),
  * the derived properties (`Shift.language_or_any`,
    `Translator.avatar_url`, `Talk.slug` / `watch_url` / `slides_url`)
    as Lean functions, with the Python attribute/name resolution and the
    `hashlib.md5` argument-type check modelled explicitly where the
    source depends on them.
-/

namespace C3lingo

/-- Embedding of `django.contrib.auth.models.User` (external to the repo): only the
fields this code touches are carried — the primary key and `email`
(used by `Translator.avatar_url`); `username` backs `__str__`. -/
structure User where
  id : Nat
  username : String
  email : String
deriving Repr, DecidableEq

/-- The `Language` model (models.py lines 6-24). -/
structure Language where
  id : Nat
  code : String
  name_en : String
  name_self : String
deriving Repr, DecidableEq

/-- The `Conference` model (models.py lines 26-44).  Datetimes are opaque
integers; `start`/`end` are nullable (`null=True`). -/
structure Conference where
  id : Nat
  shortname : String
  name : String
  image_url : String
  start : Option Int
  «end» : Option Int
  fahrplan_version : String
deriving Repr, DecidableEq

/-- The `Room` model (models.py lines 46-55): `conference` is a foreign key
with `on_delete=PROTECT`. -/
structure Room where
  id : Nat
  conference : Nat
  name : String
deriving Repr, DecidableEq

/-- The `Talk` model (models.py lines 69-107).  The four text fields
`title`/`subtitle`/`abstract`/`description` are inherited from the
abstract base `TalkBaseModel` (lines 57-67).  Foreign keys
`conference`, `language`, `room` are all `on_delete=PROTECT`. -/
structure Talk where
  id : Nat
  title : String
  subtitle : String
  abstract : String
  description : String
  conference : Nat
  fahrplan_id : String
  fahrplan_guid : String
  logo_url : String
  talk_type : String
  speakers : String
  language : Nat
  room : Nat
  start : Int
  «end» : Int
deriving Repr, DecidableEq

/-- The `Translation` model (models.py lines 109-119): text fields from
`TalkBaseModel`; `author` is a nullable user reference with
`on_delete=SET_NULL`; `talk` is `on_delete=CASCADE`; `language` is
`on_delete=PROTECT`; `unique_together` on the pair `(talk, language)`. -/
structure Translation where
  id : Nat
  title : String
  subtitle : String
  abstract : String
  description : String
  author : Option Nat
  talk : Nat
  language : Nat
deriving Repr, DecidableEq

/-- The `Translator` model (models.py lines 121-142): `user` is a
`OneToOneField` (unique) with `on_delete=CASCADE`; `secret_token` has
`default=lambda: get_random_string(64)`. -/
structure Translator where
  id : Nat
  user : Nat
  confirmed : Bool
  bio : String
  contact_info : String
  secret_token : String
deriving Repr, DecidableEq

/-- The `TranslatorSpeaks` model (models.py lines 144-150): `user` is
CASCADE, `language` is PROTECT; no uniqueness constraint. -/
structure TranslatorSpeaks where
  id : Nat
  user : Nat
  language : Nat
deriving Repr, DecidableEq

/-- The `Booth` model (models.py lines 152-167): `room` is PROTECT. -/
structure Booth where
  id : Nat
  room : Nat
  name : String
  location : String
  dect : String
  desired_occupancy : Nat
  maximum_occupancy : Nat
deriving Repr, DecidableEq

/-- The `Shift` model (models.py lines 169-190): `booth` is PROTECT, `talk`
is CASCADE, `language` is nullable (`blank=True, null=True`) and
PROTECT. -/
structure Shift where
  id : Nat
  booth : Nat
  talk : Nat
  language : Option Nat
deriving Repr, DecidableEq

/-- The `ShiftAssignment` model (models.py lines 192-206): `shift` and
`user` are both CASCADE; `waitlisted` defaults to true, `freeloaded`
to false. -/
structure ShiftAssignment where
  id : Nat
  shift : Nat
  user : Nat
  waitlisted : Bool
  freeloaded : Bool
  comment : String
deriving Repr, DecidableEq

/-- The database: one list of rows per declared model table, plus the
external `auth_user` table that the foreign keys target. -/
structure DbState where
  users : List User
  languages : List Language
  conferences : List Conference
  rooms : List Room
  talks : List Talk
  translations : List Translation
  translators : List Translator
  translatorSpeaks : List TranslatorSpeaks
  booths : List Booth
  shifts : List Shift
  shiftAssignments : List ShiftAssignment
deriving Repr, DecidableEq

/-- Python value returned by `Shift.language_or_any`: either the
`Language` object held by `self.language` (here its row reference) or
the plain one-character string `*`. -/
inductive LanguageOrAny where
  | language (l : Nat)
  | str (s : String)
deriving Repr, DecidableEq

/-- Property `Shift.language_or_any` (models.py lines 179-183): when
`self.language` is not None it is returned, else the string `*`. -/
def Shift.language_or_any (s : Shift) : LanguageOrAny :=
  match s.language with
  | some l => .language l
  | none => .str "*"

/-- Storage-layer errors surfaced by the ORM for these declarations:
`IntegrityError` on a violated uniqueness constraint at insert,
`ProtectedError` when deleting a row still referenced through an
`on_delete=PROTECT` foreign key. -/
inductive DbError where
  | integrityError
  | protectedError
deriving Repr, DecidableEq

/-- Insert a `Translation` row.  The only constraint declared on the
table is `unique_together` on the pair `(talk, language)` (models.py lines
115-116): the insert fails iff a row with the same `(talk, language)`
pair already exists. -/
def Translation.create (db : DbState) (r : Translation) : Except DbError DbState :=
  if db.translations.any (fun t => t.talk == r.talk && t.language == r.language) then
    .error .integrityError
  else
    .ok { db with translations := db.translations ++ [r] }

/-- Insert a `Talk` row.  The declared constraint is
`unique_together` on the pair `(conference, fahrplan_id)` (models.py lines
87-88). -/
def Talk.create (db : DbState) (r : Talk) : Except DbError DbState :=
  if db.talks.any (fun t => t.conference == r.conference && t.fahrplan_id == r.fahrplan_id) then
    .error .integrityError
  else
    .ok { db with talks := db.talks ++ [r] }

/-- Alphabet used by `django.utils.crypto.get_random_string` as the
default `allowed_chars` (external to the repo): 62 ASCII letters and digits. -/
def allowed_chars : List Char :=
  "abcdefghijklmnopqrstuvwxyzABCDEFGHIJKLMNOPQRSTUVWXYZ0123456789".toList

/-- Model of `django.utils.crypto.get_random_string` (external to the
repo): draws `length` independent uniform choices from
`allowed_chars`.  The randomness source is made explicit as a stream
`rng : Nat → Nat` of draws; draw `i` selects character
`allowed_chars[rng i % 62]`. -/
def get_random_string (length : Nat) (rng : Nat → Nat) : String :=
  String.mk ((List.range length).map (fun i => allowed_chars.getD (rng i % allowed_chars.length) 'a'))

/-- Insert a `Translator` row.  `user` is a `OneToOneField` (models.py
line 122), i.e. carries a unique constraint: the insert fails iff a
`Translator` for the same user already exists.  `secret_token` is
filled by the field default `lambda: get_random_string(64)` (models.py
line 128), evaluated at row creation from the explicit randomness
stream. -/
def Translator.create (db : DbState) (id user : Nat) (confirmed : Bool)
    (bio contact_info : String) (rng : Nat → Nat) : Except DbError (DbState × Translator) :=
  if db.translators.any (fun t => t.user == user) then
    .error .integrityError
  else
    let row : Translator :=
      { id := id, user := user, confirmed := confirmed, bio := bio,
        contact_info := contact_info, secret_token := get_random_string 64 rng }
    .ok ({ db with translators := db.translators ++ [row] }, row)

/-- Delete a `Talk`.  Nothing references `Talk` through PROTECT, so the
deletion always succeeds.  `Translation.talk` (models.py line 112) and
`Shift.talk` (line 173) are `on_delete=CASCADE`, so the translations
and shifts of the talk are removed; `ShiftAssignment.shift` (line
194) is CASCADE in turn, so assignments of the removed shifts are
removed with them. -/
def Talk.delete (db : DbState) (tid : Nat) : DbState :=
  let deadShifts := db.shifts.filter (fun s => s.talk == tid)
  { db with
    talks := db.talks.filter (fun t => t.id != tid)
    translations := db.translations.filter (fun tr => tr.talk != tid)
    shifts := db.shifts.filter (fun s => s.talk != tid)
    shiftAssignments := db.shiftAssignments.filter
      (fun sa => !(deadShifts.any (fun s => s.id == sa.shift))) }

/-- Delete a `Conference`.  `Room.conference` (models.py line 51) and
`Talk.conference` (line 71) are `on_delete=PROTECT`: the deletion
fails while any room or talk references the conference. -/
def Conference.delete (db : DbState) (cid : Nat) : Except DbError DbState :=
  if db.rooms.any (fun r => r.conference == cid) || db.talks.any (fun t => t.conference == cid) then
    .error .protectedError
  else
    .ok { db with conferences := db.conferences.filter (fun c => c.id != cid) }

/-- Delete a `Room`.  `Talk.room` (models.py line 82) and `Booth.room`
(line 154) are `on_delete=PROTECT`. -/
def Room.delete (db : DbState) (rid : Nat) : Except DbError DbState :=
  if db.talks.any (fun t => t.room == rid) || db.booths.any (fun b => b.room == rid) then
    .error .protectedError
  else
    .ok { db with rooms := db.rooms.filter (fun r => r.id != rid) }

/-- Delete a `Shift`.  Nothing references `Shift` through PROTECT;
`ShiftAssignment.shift` (models.py line 194) is `on_delete=CASCADE`. -/
def Shift.delete (db : DbState) (sid : Nat) : DbState :=
  { db with
    shifts := db.shifts.filter (fun s => s.id != sid)
    shiftAssignments := db.shiftAssignments.filter (fun sa => sa.shift != sid) }

/-- Delete a `User` (external `auth_user` row).  Nothing references
users through PROTECT.  `Translator.user` (models.py line 122),
`TranslatorSpeaks.user` (line 146) and `ShiftAssignment.user` (line
195) are CASCADE; `Translation.author` (line 111) is
`on_delete=SET_NULL`, so surviving translations keep every other
field and drop only the author reference. -/
def User.delete (db : DbState) (uid : Nat) : DbState :=
  { db with
    users := db.users.filter (fun u => u.id != uid)
    translators := db.translators.filter (fun t => t.user != uid)
    translatorSpeaks := db.translatorSpeaks.filter (fun t => t.user != uid)
    shiftAssignments := db.shiftAssignments.filter (fun sa => sa.user != uid)
    translations := db.translations.map
      (fun tr => if tr.author == some uid then { tr with author := none } else tr) }

/-- Python runtime errors the modelled code can raise: `AttributeError`
for a missing attribute, `NameError` for an unresolvable free name,
`TypeError` for an argument of the wrong type. -/
inductive PyErr where
  | attributeError (attr : String)
  | nameError (name : String)
  | typeError (msg : String)
deriving Repr, DecidableEq

/-- Python values produced by attribute access on the model instances:
strings, integers, booleans, references to other rows, and nullable
variants. -/
inductive PyVal where
  | str (s : String)
  | int (n : Int)
  | bool (b : Bool)
  | ref (id : Nat)
  | optRef (o : Option Nat)
  | optInt (o : Option Int)
deriving Repr, DecidableEq

/-- Plain rendering of a `PyVal` into a string (for interpolation).
Only reachable on values that exist; total for convenience. -/
def PyVal.render : PyVal → String
  | .str s => s
  | .int n => toString n
  | .bool b => toString b
  | .ref i => toString i
  | .optRef o => toString o
  | .optInt o => toString o

/-- Python attribute access on a `Conference` instance: exactly the
fields declared on the model (models.py lines 26-44) plus the implicit
primary key; any other attribute raises `AttributeError`.  In
particular `acronym` is NOT among them — only `shortname` exists. -/
def Conference.getattr (c : Conference) (a : String) : Except PyErr PyVal :=
  if a == "id" then .ok (.int c.id)
  else if a == "shortname" then .ok (.str c.shortname)
  else if a == "name" then .ok (.str c.name)
  else if a == "image_url" then .ok (.str c.image_url)
  else if a == "start" then .ok (.optInt c.start)
  else if a == "end" then .ok (.optInt c.«end»)
  else if a == "fahrplan_version" then .ok (.str c.fahrplan_version)
  else .error (.attributeError a)

/-- Python attribute access on a `Talk` instance: the fields declared
on `Talk` (models.py lines 69-85), the four inherited `TalkBaseModel`
fields, and the implicit primary key.  Neither `name` nor `guid` is
among them (the id-like field is `fahrplan_id`, the guid-like field is
`fahrplan_guid`). -/
def Talk.getattr (t : Talk) (a : String) : Except PyErr PyVal :=
  if a == "id" then .ok (.int t.id)
  else if a == "title" then .ok (.str t.title)
  else if a == "subtitle" then .ok (.str t.subtitle)
  else if a == "abstract" then .ok (.str t.abstract)
  else if a == "description" then .ok (.str t.description)
  else if a == "conference" then .ok (.ref t.conference)
  else if a == "fahrplan_id" then .ok (.str t.fahrplan_id)
  else if a == "fahrplan_guid" then .ok (.str t.fahrplan_guid)
  else if a == "logo_url" then .ok (.str t.logo_url)
  else if a == "talk_type" then .ok (.str t.talk_type)
  else if a == "speakers" then .ok (.str t.speakers)
  else if a == "language" then .ok (.ref t.language)
  else if a == "room" then .ok (.ref t.room)
  else if a == "start" then .ok (.int t.start)
  else if a == "end" then .ok (.int t.«end»)
  else .error (.attributeError a)

/-- The names bound at module level in `models.py`: the three imports
(line 1-4) and the ten model classes plus the abstract base.  No
`parametrize` is ever defined or imported. -/
def module_names : List String :=
  ["models", "User", "get_random_string", "hashlib",
   "Language", "Conference", "Room", "TalkBaseModel", "Talk", "Translation",
   "Translator", "TranslatorSpeaks", "Booth", "Shift", "ShiftAssignment"]

/-- Resolution of a free (module-level) name; raises `NameError` when
the name is not bound in the module scope. -/
def module_lookup (n : String) : Except PyErr Unit :=
  if module_names.contains n then .ok () else .error (.nameError n)

/-- Property `Talk.slug` (models.py lines 93-99).  The `str.format` keyword
arguments are evaluated left to right before `format` runs:
`self.conference.acronym` first (an attribute lookup on the referenced
`Conference` instance, passed here explicitly), then
`self.fahrplan_id`, then `parametrize(self.name)` — which first
resolves the free name `parametrize`, then looks up `self.name`.  The
interpolation in the final line is unreachable: the first lookup
already raises. -/
def Talk.slug (conf : Conference) (t : Talk) : Except PyErr String := do
  let conference_name ← conf.getattr "acronym"
  let fahrplan_id := t.fahrplan_id
  let _ ← module_lookup "parametrize"
  let nameVal ← t.getattr "name"
  pure (conference_name.render ++ "-" ++ fahrplan_id ++ "-" ++ nameVal.render)

/-- Property `Talk.watch_url` (models.py lines 101-103): interpolates
`self.slug` into a fixed URL prefix. -/
def Talk.watch_url (conf : Conference) (t : Talk) : Except PyErr String := do
  let s ← Talk.slug conf t
  pure ("https://media.ccc.de/v/" ++ s)

/-- Property `Talk.slides_url` (models.py lines 105-107): evaluates `self.guid`
(no such attribute) as the argument of `str.format`.  (The format
string also names a field `guid` while passing the argument
positionally; that second defect is unreachable because the attribute
lookup raises first.) -/
def Talk.slides_url (t : Talk) : Except PyErr String := do
  let g ← t.getattr "guid"
  pure ("https://speakers.c3lingo.org/talks/" ++ g.render ++ "/")

/-! MD5 (external `hashlib`), per RFC 1321, over a byte list; used only
behind the bytes branch of `hashlib_md5`. -/

/-- The 64 MD5 round constants `K[i] = floor(2^32 * abs(sin(i+1)))`. -/
def md5K : List Nat :=
  [0xd76aa478, 0xe8c7b756, 0x242070db, 0xc1bdceee,
   0xf57c0faf, 0x4787c62a, 0xa8304613, 0xfd469501,
   0x698098d8, 0x8b44f7af, 0xffff5bb1, 0x895cd7be,
   0x6b901122, 0xfd987193, 0xa679438e, 0x49b40821,
   0xf61e2562, 0xc040b340, 0x265e5a51, 0xe9b6c7aa,
   0xd62f105d, 0x02441453, 0xd8a1e681, 0xe7d3fbc8,
   0x21e1cde6, 0xc33707d6, 0xf4d50d87, 0x455a14ed,
   0xa9e3e905, 0xfcefa3f8, 0x676f02d9, 0x8d2a4c8a,
   0xfffa3942, 0x8771f681, 0x6d9d6122, 0xfde5380c,
   0xa4beea44, 0x4bdecfa9, 0xf6bb4b60, 0xbebfbc70,
   0x289b7ec6, 0xeaa127fa, 0xd4ef3085, 0x04881d05,
   0xd9d4d039, 0xe6db99e5, 0x1fa27cf8, 0xc4ac5665,
   0xf4292244, 0x432aff97, 0xab9423a7, 0xfc93a039,
   0x655b59c3, 0x8f0ccc92, 0xffeff47d, 0x85845dd1,
   0x6fa87e4f, 0xfe2ce6e0, 0xa3014314, 0x4e0811a1,
   0xf7537e82, 0xbd3af235, 0x2ad7d2bb, 0xeb86d391]

/-- The 64 MD5 per-round left-rotation amounts. -/
def md5S : List Nat :=
  [7, 12, 17, 22, 7, 12, 17, 22, 7, 12, 17, 22, 7, 12, 17, 22,
   5, 9, 14, 20, 5, 9, 14, 20, 5, 9, 14, 20, 5, 9, 14, 20,
   4, 11, 16, 23, 4, 11, 16, 23, 4, 11, 16, 23, 4, 11, 16, 23,
   6, 10, 15, 21, 6, 10, 15, 21, 6, 10, 15, 21, 6, 10, 15, 21]

/-- 32-bit left rotation. -/
def leftrot32 (x c : Nat) : Nat :=
  ((x <<< c) ||| (x >>> (32 - c))) % 4294967296

/-- MD5 padding: append `0x80`, zero bytes up to 56 mod 64, then the
original length in bits as a 64-bit little-endian value. -/
def md5Pad (msg : List Nat) : List Nat :=
  let len := msg.length
  let r := (len + 1) % 64
  let zeros := if r ≤ 56 then 56 - r else 120 - r
  let bitLen := (8 * len) % (2 ^ 64)
  msg ++ [0x80] ++ List.replicate zeros 0 ++
    (List.range 8).map (fun i => (bitLen >>> (8 * i)) % 256)

/-- Word `j` (little-endian 32-bit) of 64-byte chunk `chunk` of the
padded message. -/
def md5Word (padded : List Nat) (chunk j : Nat) : Nat :=
  padded.getD (64 * chunk + 4 * j) 0 +
  256 * padded.getD (64 * chunk + 4 * j + 1) 0 +
  65536 * padded.getD (64 * chunk + 4 * j + 2) 0 +
  16777216 * padded.getD (64 * chunk + 4 * j + 3) 0

/-- One of the 64 MD5 mixing steps on the running `(A, B, C, D)`. -/
def md5Mix (M : Nat → Nat) (st : Nat × Nat × Nat × Nat) (i : Nat) : Nat × Nat × Nat × Nat :=
  let (A, B, C, D) := st
  let Fg : Nat × Nat :=
    if i < 16 then ((B &&& C) ||| ((B ^^^ 0xffffffff) &&& D), i)
    else if i < 32 then ((D &&& B) ||| ((D ^^^ 0xffffffff) &&& C), (5 * i + 1) % 16)
    else if i < 48 then (B ^^^ C ^^^ D, (3 * i + 5) % 16)
    else (C ^^^ (B ||| (D ^^^ 0xffffffff)), (7 * i) % 16)
  let Fv := (Fg.1 + A + md5K.getD i 0 + M Fg.2) % 4294967296
  (D, (B + leftrot32 Fv (md5S.getD i 0)) % 4294967296, B, C)

/-- Process one 64-byte chunk: run the 64 mixing steps and add the
result into the running digest state. -/
def md5Chunk (padded : List Nat) (st : Nat × Nat × Nat × Nat) (chunk : Nat) : Nat × Nat × Nat × Nat :=
  let mixed := (List.range 64).foldl (md5Mix (md5Word padded chunk)) st
  ((st.1 + mixed.1) % 4294967296, (st.2.1 + mixed.2.1) % 4294967296,
   (st.2.2.1 + mixed.2.2.1) % 4294967296, (st.2.2.2 + mixed.2.2.2) % 4294967296)

/-- Lowercase hex digit. -/
def hexChar (n : Nat) : Char := "0123456789abcdef".toList.getD n '0'

/-- Two lowercase hex digits of one byte. -/
def toHexByte (b : Nat) : String := String.mk [hexChar (b / 16 % 16), hexChar (b % 16)]

/-- Little-endian lowercase hex of a 32-bit word, byte by byte. -/
def toHexLE (w : Nat) : String :=
  String.join ((List.range 4).map (fun i => toHexByte ((w >>> (8 * i)) % 256)))

/-- MD5 hex digest of a byte list. -/
def md5Hex (msg : List Nat) : String :=
  let padded := md5Pad msg
  let d := (List.range (padded.length / 64)).foldl (md5Chunk padded)
    (0x67452301, 0xefcdab89, 0x98badcfe, 0x10325476)
  toHexLE d.1 ++ toHexLE d.2.1 ++ toHexLE d.2.2.1 ++ toHexLE d.2.2.2

/-- A Python object passed to `hashlib.md5`: either a text string or a
byte string.  in Django, `User.email` is a text string (`str`). -/
inductive PyObj where
  | str (s : String)
  | bytes (bs : List Nat)
deriving Repr, DecidableEq

/-- An md5 hash object holding the hashed bytes. -/
structure Md5 where
  data : List Nat
deriving Repr, DecidableEq

/-- Model of `hashlib.md5` under Python 3 (the repo targets Django 3.0, which is
Python-3 only): accepts bytes; raises `TypeError` when handed a text
string. -/
def hashlib_md5 (o : PyObj) : Except PyErr Md5 :=
  match o with
  | .str _ => .error (.typeError "Unicode-objects must be encoded before hashing")
  | .bytes bs => .ok ⟨bs⟩

/-- Method `hexdigest` of an md5 hash object. -/
def Md5.hexdigest (m : Md5) : String := md5Hex m.data

/-- Property `Translator.avatar_url` (models.py lines 130-139): the
gravatar URL prefix formatted with the hexdigest of the md5 of the
lowercased email.  The associated `User` row is passed explicitly;
the lowercased email is a text string, handed directly to
`hashlib.md5` without encoding. -/
def Translator.avatar_url (user : User) (_t : Translator) : Except PyErr String := do
  let m ← hashlib_md5 (.str user.email.toLower)
  pure ("https://www.gravatar.com/avatar/" ++ m.hexdigest)

/-! Concrete fixture rows and database states, used by witnesses and
counterexamples. -/

/-- A database with every table empty. -/
def emptyDb : DbState :=
  { users := [], languages := [], conferences := [], rooms := [], talks := [],
    translations := [], translators := [], translatorSpeaks := [], booths := [],
    shifts := [], shiftAssignments := [] }

def langA : Language := { id := 1, code := "en", name_en := "English", name_self := "English" }

def confA : Conference :=
  { id := 1, shortname := "36c3", name := "36th Congress", image_url := "",
    start := none, «end» := none, fahrplan_version := "" }

def confB : Conference := { confA with id := 2, shortname := "37c3" }

def roomA : Room := { id := 1, conference := 1, name := "Hall A" }

def roomB : Room := { id := 2, conference := 2, name := "Hall B" }

def talkA : Talk :=
  { id := 1, title := "Talk one", subtitle := "", abstract := "", description := "",
    conference := 1, fahrplan_id := "42", fahrplan_guid := "guid-42", logo_url := "",
    talk_type := "", speakers := "", language := 1, room := 1, start := 0, «end» := 1 }

/-- A talk in conference 1 held in a room of conference 2. -/
def talkB : Talk := { talkA with id := 2, fahrplan_id := "43", room := 2 }

/-- A second talk row with the same `(conference, fahrplan_id)` pair as `talkA`. -/
def talkA2 : Talk := { talkA with id := 3 }

def shiftA : Shift := { id := 1, booth := 1, talk := 1, language := none }

def saA : ShiftAssignment :=
  { id := 1, shift := 1, user := 1, waitlisted := true, freeloaded := false, comment := "" }

def userA : User := { id := 1, username := "alice", email := "Alice@example.org" }

def trlA : Translation :=
  { id := 1, title := "Vortrag eins", subtitle := "", abstract := "", description := "",
    author := some 1, talk := 1, language := 2 }

/-- A second translation row with the same `(talk, language)` pair as `trlA`. -/
def trlA2 : Translation := { trlA with id := 2 }

/-- A talk with one shift and one assignment on that shift. -/
def dbC3 : DbState := { emptyDb with talks := [talkA], shifts := [shiftA], shiftAssignments := [saA] }

/-- Two conferences; conference 1 has room 1, conference 2 has room 2;
`talkB` belongs to conference 1 but is held in room 2. -/
def dbC4 : DbState :=
  { emptyDb with
    languages := [langA]
    conferences := [confA, confB]
    rooms := [roomA, roomB]
    talks := [talkB] }

/-- State `dbC4` after room 1 is deleted: no room of conference 1 is left,
but `talkB` still references conference 1. -/
def dbC4After : DbState := { dbC4 with rooms := [roomB] }

/-- A user with an authored translation. -/
def dbC9 : DbState := { emptyDb with users := [userA], talks := [talkA], translations := [trlA] }

/-! Claim theorems. -/

/-- C1: `Shift.language_or_any` returns the language of the shift when the
`language` field is set, and the string `*` (the "any language"
sentinel) when it is null. -/
theorem shift_language_or_any_spec (s : Shift) :
    (∀ l, s.language = some l → s.language_or_any = .language l) ∧
    (s.language = none → s.language_or_any = .str "*") := by
  constructor
  · intro l h
    simp [Shift.language_or_any, h]
  · intro h
    simp [Shift.language_or_any, h]

theorem shift_language_or_any_spec_witness :
    Shift.language_or_any { id := 1, booth := 1, talk := 1, language := some 7 } = .language 7 ∧
    Shift.language_or_any { id := 2, booth := 1, talk := 1, language := none } = .str "*" :=
  ⟨(shift_language_or_any_spec _).1 7 rfl, (shift_language_or_any_spec _).2 rfl⟩

/-- C2: with no conflicting row present, creating a Translation, a
Talk, or a Translator succeeds; immediately afterwards, creating a
second Translation with the same `(talk, language)` pair, a second
Talk with the same `(conference, fahrplan_id)` pair, or a second
Translator for the same user, fails with the constraint-violation
error. -/
theorem creation_unique_constraints (db : DbState)
    (tr tr2 : Translation) (tk tk2 : Talk)
    (i u : Nat) (c : Bool) (b ci : String) (rng : Nat → Nat)
    (i2 : Nat) (c2 : Bool) (b2 ci2 : String) (rng2 : Nat → Nat)
    (htr : db.translations.any (fun x => x.talk == tr.talk && x.language == tr.language) = false)
    (htrT : tr2.talk = tr.talk) (htrL : tr2.language = tr.language)
    (htk : db.talks.any (fun x => x.conference == tk.conference && x.fahrplan_id == tk.fahrplan_id) = false)
    (htkC : tk2.conference = tk.conference) (htkF : tk2.fahrplan_id = tk.fahrplan_id)
    (hu : db.translators.any (fun x => x.user == u) = false) :
    (∃ db1, Translation.create db tr = .ok db1 ∧
       Translation.create db1 tr2 = .error .integrityError) ∧
    (∃ db1, Talk.create db tk = .ok db1 ∧
       Talk.create db1 tk2 = .error .integrityError) ∧
    (∃ db1 row, Translator.create db i u c b ci rng = .ok (db1, row) ∧
       Translator.create db1 i2 u c2 b2 ci2 rng2 = .error .integrityError) := by
  refine ⟨⟨{ db with translations := db.translations ++ [tr] }, ?_, ?_⟩,
          ⟨{ db with talks := db.talks ++ [tk] }, ?_, ?_⟩,
          ⟨{ db with translators := db.translators ++
               [{ id := i, user := u, confirmed := c, bio := b, contact_info := ci,
                  secret_token := get_random_string 64 rng }] },
            { id := i, user := u, confirmed := c, bio := b, contact_info := ci,
              secret_token := get_random_string 64 rng }, ?_, ?_⟩⟩
  · simp [Translation.create, htr]
  · simp [Translation.create, htrT, htrL]
  · simp [Talk.create, htk]
  · simp [Talk.create, htkC, htkF]
  · simp [Translator.create, hu]
  · simp [Translator.create, hu]

theorem creation_unique_constraints_witness :
    (∃ db1, Translation.create emptyDb trlA = .ok db1 ∧
       Translation.create db1 trlA2 = .error .integrityError) ∧
    (∃ db1, Talk.create emptyDb talkA = .ok db1 ∧
       Talk.create db1 talkA2 = .error .integrityError) ∧
    (∃ db1 row, Translator.create emptyDb 1 5 true "" "" (fun _ => 0) = .ok (db1, row) ∧
       Translator.create db1 2 5 false "" "" (fun _ => 1) = .error .integrityError) :=
  creation_unique_constraints emptyDb trlA trlA2 talkA talkA2 1 5 true "" "" (fun _ => 0)
    2 false "" "" (fun _ => 1) rfl rfl rfl rfl rfl rfl rfl

/-- C3 counterexample: the frame clause of the claim "rows of other
entities not referencing it remain" fails.  A `ShiftAssignment` has no
talk field, so it never references a Talk, yet deleting the Talk
removes the assignment `saA` (through the chained Shift cascade). -/
theorem talk_delete_frame_counterexample :
    saA ∈ dbC3.shiftAssignments ∧ saA ∉ (Talk.delete dbC3 1).shiftAssignments := by
  decide

/-- C3 (amended): deleting a Talk removes exactly the Translations and
Shifts referencing it; rows of User, Language, Conference, Room,
Translator, TranslatorSpeaks and Booth are untouched; a
ShiftAssignment survives iff its Shift does not reference the deleted
Talk. -/
theorem talk_delete_cascade (db : DbState) (tid : Nat) :
    (∀ tr ∈ db.translations, (tr ∈ (Talk.delete db tid).translations ↔ tr.talk ≠ tid)) ∧
    (∀ s ∈ db.shifts, (s ∈ (Talk.delete db tid).shifts ↔ s.talk ≠ tid)) ∧
    (Talk.delete db tid).users = db.users ∧
    (Talk.delete db tid).languages = db.languages ∧
    (Talk.delete db tid).conferences = db.conferences ∧
    (Talk.delete db tid).rooms = db.rooms ∧
    (Talk.delete db tid).translators = db.translators ∧
    (Talk.delete db tid).translatorSpeaks = db.translatorSpeaks ∧
    (Talk.delete db tid).booths = db.booths ∧
    (∀ sa ∈ db.shiftAssignments,
      (sa ∈ (Talk.delete db tid).shiftAssignments ↔
        ¬ ∃ s ∈ db.shifts, s.talk = tid ∧ s.id = sa.shift)) := by
  refine ⟨?_, ?_, rfl, rfl, rfl, rfl, rfl, rfl, rfl, ?_⟩
  · intro tr htr
    simp [Talk.delete, List.mem_filter, htr]
  · intro s hs
    simp [Talk.delete, List.mem_filter, hs]
  · intro sa hsa
    simp [Talk.delete, List.mem_filter, List.any_eq_true, hsa]

theorem talk_delete_cascade_witness :
    (shiftA ∈ (Talk.delete dbC3 1).shifts ↔ shiftA.talk ≠ 1) ∧
    (Talk.delete dbC3 1).conferences = dbC3.conferences ∧
    (saA ∈ (Talk.delete dbC3 1).shiftAssignments ↔
      ¬ ∃ s ∈ dbC3.shifts, s.talk = 1 ∧ s.id = saA.shift) :=
  ⟨(talk_delete_cascade dbC3 1).2.1 shiftA (by decide),
   (talk_delete_cascade dbC3 1).2.2.2.2.1,
   (talk_delete_cascade dbC3 1).2.2.2.2.2.2.2.2.2 saA (by decide)⟩

/-- C4 counterexample: in `dbC4`, conference 1 has room 1 (so deleting
it fails, as the claim says), and after deleting every room of
conference 1 the deletion still fails — `talkB` (held in a room of
conference 2) protects conference 1 — where the claim as stated says it
succeeds. -/
theorem conference_delete_counterexample :
    (∃ r ∈ dbC4.rooms, r.conference = 1) ∧
    Room.delete dbC4 1 = .ok dbC4After ∧
    (∀ r ∈ dbC4After.rooms, r.conference ≠ 1) ∧
    Conference.delete dbC4After 1 = .error .protectedError :=
  ⟨by decide, by rfl, by decide, by rfl⟩

/-- C4 (amended): deleting a Conference still referenced by a Room
fails with the reference-integrity error (the state is unchanged: a
failed delete returns no new state); once no Room and also no Talk
references it, the deletion succeeds, removes exactly that conference
row, and touches no other table. -/
theorem conference_delete_protect (db : DbState) (cid : Nat) :
    ((∃ r ∈ db.rooms, r.conference = cid) →
      Conference.delete db cid = .error .protectedError) ∧
    ((∀ r ∈ db.rooms, r.conference ≠ cid) → (∀ t ∈ db.talks, t.conference ≠ cid) →
      ∃ db2, Conference.delete db cid = .ok db2 ∧
        (∀ co ∈ db2.conferences, co.id ≠ cid) ∧
        (∀ co ∈ db.conferences, co.id ≠ cid → co ∈ db2.conferences) ∧
        db2.rooms = db.rooms ∧ db2.talks = db.talks ∧ db2.users = db.users ∧
        db2.languages = db.languages ∧ db2.translations = db.translations ∧
        db2.translators = db.translators ∧ db2.translatorSpeaks = db.translatorSpeaks ∧
        db2.booths = db.booths ∧ db2.shifts = db.shifts ∧
        db2.shiftAssignments = db.shiftAssignments) := by
  constructor
  · rintro ⟨r, hr, he⟩
    have : db.rooms.any (fun r => r.conference == cid) = true := by
      simp [List.any_eq_true]
      exact ⟨r, hr, he⟩
    simp [Conference.delete, this]
  · intro hrooms htalks
    have h1 : db.rooms.any (fun r => r.conference == cid) = false := by
      simp [List.any_eq_false]
      exact hrooms
    have h2 : db.talks.any (fun t => t.conference == cid) = false := by
      simp [List.any_eq_false]
      exact htalks
    refine ⟨{ db with conferences := db.conferences.filter (fun c => c.id != cid) }, ?_, ?_, ?_,
      rfl, rfl, rfl, rfl, rfl, rfl, rfl, rfl, rfl, rfl⟩
    · simp [Conference.delete, h1, h2]
    · intro co hco
      simp [List.mem_filter] at hco
      exact hco.2
    · intro co hco hne
      simp [List.mem_filter]
      exact ⟨hco, hne⟩

theorem conference_delete_protect_witness :
    Conference.delete dbC4 1 = .error .protectedError ∧
    (∃ db2, Conference.delete dbC4 3 = .ok db2 ∧
      (∀ co ∈ db2.conferences, co.id ≠ 3) ∧
      (∀ co ∈ dbC4.conferences, co.id ≠ 3 → co ∈ db2.conferences) ∧
      db2.rooms = dbC4.rooms ∧ db2.talks = dbC4.talks ∧ db2.users = dbC4.users ∧
      db2.languages = dbC4.languages ∧ db2.translations = dbC4.translations ∧
      db2.translators = dbC4.translators ∧ db2.translatorSpeaks = dbC4.translatorSpeaks ∧
      db2.booths = dbC4.booths ∧ db2.shifts = dbC4.shifts ∧
      db2.shiftAssignments = dbC4.shiftAssignments) :=
  ⟨(conference_delete_protect dbC4 1).1 (by decide),
   (conference_delete_protect dbC4 3).2 (by decide) (by decide)⟩

/-- C5: for a ShiftAssignment row in the database, deleting its
referenced Shift removes the assignment, and so does deleting its
referenced user. -/
theorem shift_assignment_cascade (db : DbState) (sa : ShiftAssignment)
    (_h : sa ∈ db.shiftAssignments) :
    sa ∉ (Shift.delete db sa.shift).shiftAssignments ∧
    sa ∉ (User.delete db sa.user).shiftAssignments := by
  constructor
  · simp [Shift.delete, List.mem_filter]
  · simp [User.delete, List.mem_filter]

theorem shift_assignment_cascade_witness :
    saA ∉ (Shift.delete dbC3 saA.shift).shiftAssignments ∧
    saA ∉ (User.delete dbC3 saA.user).shiftAssignments :=
  shift_assignment_cascade dbC3 saA (by decide)

/-- C6: the `secret_token` of a newly created Translator is the value of
`get_random_string 64` on the creation-time randomness stream and is
64 characters long; tokens of two creations are independent draws —
there are streams making them differ and (distinct) streams making
them collide, so distinctness is probabilistic, not an invariant. -/
theorem secret_token_spec (db : DbState) (i u : Nat) (c : Bool) (b ci : String)
    (rng : Nat → Nat) (h : db.translators.any (fun t => t.user == u) = false) :
    (∃ db2 row, Translator.create db i u c b ci rng = .ok (db2, row) ∧
       row.secret_token = get_random_string 64 rng ∧
       row.secret_token.length = 64) ∧
    (∃ r1 r2 : Nat → Nat, get_random_string 64 r1 ≠ get_random_string 64 r2) ∧
    (∃ r1 r2 : Nat → Nat, (∀ j, r1 j ≠ r2 j) ∧
       get_random_string 64 r1 = get_random_string 64 r2) := by
  refine ⟨⟨{ db with translators := db.translators ++
        [{ id := i, user := u, confirmed := c, bio := b, contact_info := ci,
           secret_token := get_random_string 64 rng }] },
      { id := i, user := u, confirmed := c, bio := b, contact_info := ci,
        secret_token := get_random_string 64 rng }, ?_, rfl, ?_⟩,
    ⟨fun _ => 0, fun _ => 1, by decide⟩,
    ⟨fun _ => 0, fun _ => 62, fun j => by simp, by decide⟩⟩
  · simp [Translator.create, h]
  · simp [get_random_string]

theorem secret_token_spec_witness :
    (∃ db2 row, Translator.create emptyDb 1 9 true "bio" "" (fun j => j * j) = .ok (db2, row) ∧
       row.secret_token = get_random_string 64 (fun j => j * j) ∧
       row.secret_token.length = 64) ∧
    (∃ r1 r2 : Nat → Nat, get_random_string 64 r1 ≠ get_random_string 64 r2) ∧
    (∃ r1 r2 : Nat → Nat, (∀ j, r1 j ≠ r2 j) ∧
       get_random_string 64 r1 = get_random_string 64 r2) :=
  secret_token_spec emptyDb 1 9 true "bio" "" (fun j => j * j) rfl

/-- C7: for every Talk (whatever Conference row its reference
resolves to), `Talk.slug` raises `AttributeError` on the undefined
`conference.acronym`, `Talk.watch_url` fails identically because it
interpolates `slug`, and `Talk.slides_url` raises `AttributeError` on
the undefined `self.guid`; none of them returns a value. -/
theorem talk_derived_urls_raise (conf : Conference) (t : Talk) :
    Talk.slug conf t = .error (.attributeError "acronym") ∧
    Talk.watch_url conf t = .error (.attributeError "acronym") ∧
    Talk.slides_url t = .error (.attributeError "guid") :=
  ⟨rfl, rfl, rfl⟩

/-- C8: `Translator.avatar_url` never returns a URL — under Python 3
`hashlib.md5` rejects the (un-encoded) lowercased email string with a
`TypeError`, for every user and translator row. -/
theorem avatar_url_type_error (user : User) (t : Translator) :
    Translator.avatar_url user t =
      .error (.typeError "Unicode-objects must be encoded before hashing") :=
  rfl

/-- C9: deleting the author user of a Translation keeps the row (the
table keeps its length) and only nulls the author field: the surviving
row is the original with `author := none`, all other fields equal. -/
theorem translation_author_set_null (db : DbState) (tr : Translation) (uid : Nat)
    (h1 : tr ∈ db.translations) (h2 : tr.author = some uid) :
    { tr with author := none } ∈ (User.delete db uid).translations ∧
    (User.delete db uid).translations.length = db.translations.length := by
  constructor
  · have h3 := List.mem_map_of_mem
      (fun tr : Translation => if tr.author == some uid then { tr with author := none } else tr) h1
    simpa [User.delete, h2] using h3
  · simp [User.delete]

theorem translation_author_set_null_witness :
    { trlA with author := none } ∈ (User.delete dbC9 1).translations ∧
    (User.delete dbC9 1).translations.length = dbC9.translations.length :=
  translation_author_set_null dbC9 trlA 1 (by decide) (by decide)

/-- C10: deleting a Talk removes every ShiftAssignment whose Shift
references that Talk (the Talk-to-Shift cascade chains into the
Shift-to-ShiftAssignment cascade); and if the shift reference of every
assignment resolves to an existing Shift before the deletion, the same
holds afterwards — no assignment is left referencing a deleted
Shift. -/
theorem talk_delete_chains_to_assignments (db : DbState) (tid : Nat) :
    (∀ sa ∈ db.shiftAssignments, (∃ s ∈ db.shifts, s.id = sa.shift ∧ s.talk = tid) →
      sa ∉ (Talk.delete db tid).shiftAssignments) ∧
    ((∀ sa ∈ db.shiftAssignments, ∃ s ∈ db.shifts, s.id = sa.shift) →
      ∀ sa ∈ (Talk.delete db tid).shiftAssignments,
        ∃ s ∈ (Talk.delete db tid).shifts, s.id = sa.shift) := by
  constructor
  · rintro sa hsa ⟨s, hs, hid, htalk⟩
    simp [Talk.delete, List.mem_filter, List.any_eq_true, hsa]
    exact ⟨s, hs, htalk, hid⟩
  · intro hint sa hsa
    simp [Talk.delete, List.mem_filter, List.any_eq_true] at hsa
    obtain ⟨hmem, hnone⟩ := hsa
    obtain ⟨s, hs, hid⟩ := hint sa hmem
    refine ⟨s, ?_, hid⟩
    simp [Talk.delete, List.mem_filter, hs]
    intro htalk
    exact hnone s hs htalk hid

theorem talk_delete_chains_to_assignments_witness :
    saA ∉ (Talk.delete dbC3 1).shiftAssignments :=
  (talk_delete_chains_to_assignments dbC3 1).1 saA (by decide) (by decide)

end C3lingo
